import Mathlib

/-!
Shallow embedding of the FastAPI email-sender service (src/main.py).

Conventions of the embedding:
* A raised `HTTPException(status_code, detail)` is the `Except.error` of a pair
  `(status, detail)`.  Python `str(HTTPException(st, d))` is `strOfHTTPException`,
  which renders as `"st: d"` (starlette defines `__str__` that way).
* The template directory is an association list from filename to file content,
  kept in filesystem-enumeration order.  For the rendering endpoints the content
  is a parsed jinja template (`Template`); for the store endpoints it is the raw
  text.  `lookup` is polymorphic over the content type.
* Detail strings are kept verbatim except that the single quotes the source puts
  around interpolated names are elided.
* The SMTP session is an oracle `Except String Unit`: `Except.error t` stands for
  any `smtplib` exception (connect/starttls/login/send) whose `str` is `t`.
* `int(...)` on the port is modelled by `parseNat` (the claims only exercise
  the default value `"587"`).
* Python string primitives that the source uses (`str.endswith`, `str.lower`,
  `int`, splitting on the path separator) are embedded as structural functions
  over the character list of the string, so they compute definitionally.
-/

namespace EmailApp

/-- An HTTP error: status code and detail message, as carried by HTTPException. -/
abbrev HTTPError := Nat × String

/-- Python `str` of a starlette `HTTPException`: renders `status: detail`. -/
def strOfHTTPException (e : HTTPError) : String :=
  toString e.1 ++ ": " ++ e.2

/-- Association-list lookup, modelling both file lookup in a directory and
`os.getenv` style lookup.  First binding wins. -/
def lookup {α : Type} (assoc : List (String × α)) (key : String) : Option α :=
  match assoc.find? (fun kv => kv.1 == key) with
  | some kv => some kv.2
  | none => none

/-- Python `str.endswith`, character-based (structural, unlike the byte-position
core function, so it reduces definitionally). -/
def pyEndsWith (s suffix : String) : Bool :=
  List.isSuffixOf suffix.toList s.toList

/-- Python `str.lower` (ASCII suffices for the configuration values used). -/
def lowerStr (s : String) : String :=
  String.mk (s.toList.map Char.toLower)

/-- One step of Python `int` parsing on a decimal digit character. -/
def parseNatAux (acc : Option Nat) (c : Char) : Option Nat :=
  match acc with
  | none => none
  | some n => if 48 ≤ c.toNat ∧ c.toNat ≤ 57 then some (n * 10 + (c.toNat - 48)) else none

/-- Python `int(s)` for a nonnegative decimal string; `none` when `int` raises
`ValueError`. -/
def parseNat (s : String) : Option Nat :=
  match s.toList with
  | [] => none
  | l => l.foldl parseNatAux (some 0)

/-- Split a character list at every occurrence of the separator. -/
def splitChars (sep : Char) : List Char → List (List Char)
  | [] => [[]]
  | c :: rest =>
      match splitChars sep rest with
      | [] => [[c]]
      | h :: t => if c == sep then [] :: h :: t else (c :: h) :: t

/-! ## Template renderer (jinja2 environment with autoescape for html/xml) -/

/-- A parsed jinja template node: literal text, or a variable interpolation
`\x7b\x7b x \x7d\x7d` subject to autoescaping. -/
inductive Node where
  | lit : String → Node
  | var : String → Node
deriving DecidableEq

/-- A parsed template is a sequence of nodes. -/
abbrev Template := List Node

/-- The render context: a mapping from variable names to string values. -/
abbrev Context := List (String × String)

/-- markupsafe escaping of one character, as used by jinja2 autoescape:
`&` `<` `>` the apostrophe (39) and the double quote (34) become entities. -/
def escapeChar (c : Char) : List Char :=
  if c = '&' then "&amp;".toList
  else if c = '<' then "&lt;".toList
  else if c = '>' then "&gt;".toList
  else if c = Char.ofNat 39 then "&#39;".toList
  else if c = Char.ofNat 34 then "&#34;".toList
  else [c]

/-- markupsafe `escape` on a whole string. -/
def escape (s : String) : String :=
  String.mk (s.toList.flatMap escapeChar)

/-- Render one node: literals pass through, interpolations are escaped; a
variable missing from the context renders as the empty string (default
`Undefined` behaviour, no strict mode). -/
def renderNode (ctx : Context) : Node → String
  | Node.lit s => s
  | Node.var x =>
      match lookup ctx x with
      | some v => escape v
      | none => ""

/-- `template_obj.render(**context)` for an `.html` template (autoescape on). -/
def render (t : Template) (ctx : Context) : String :=
  String.join (t.map (renderNode ctx))

/-! ## Template store (`TemplateManager`) -/

/-- The template directory as seen by the store endpoints: raw file contents,
in enumeration order. -/
abbrev Dir := List (String × String)

/-- The template directory as seen by the rendering endpoints: parsed templates. -/
abbrev TDir := List (String × Template)

/-- `TemplateManager.get_template`: `env.get_template(name)` raises
`TemplateNotFound` when no file of that name exists, which the method converts
to `HTTPException(404, "Template <name> not found")`. -/
def get_template {α : Type} (dir : List (String × α)) (name : String) :
    Except HTTPError α :=
  match lookup dir name with
  | some t => Except.ok t
  | none => Except.error (404, "Template " ++ name ++ " not found")

/-- The fnmatch translation of the glob pattern `*.html` full-matches exactly
the names with suffix `.html` (pathlib glob does not special-case dotfiles). -/
def globHtml (name : String) : Bool := pyEndsWith name ".html"

/-- `TemplateManager.list_templates`: iterate the directory with
`glob("*.html")` and append each matching file name. -/
def list_templates (dir : Dir) : List String :=
  dir.foldl (fun acc f => if globHtml f.1 then acc ++ [f.1] else acc) []

/-- `open(file_path, "wb")` under the template directory: overwrite the content
when the name already exists (its enumeration slot is kept), else append a new
directory entry. -/
def writeFile (dir : Dir) (name content : String) : Dir :=
  if (lookup dir name).isSome then
    dir.map (fun kv => if kv.1 == name then (name, content) else kv)
  else
    dir ++ [(name, content)]

/-! ## Upload endpoint -/

/-- The body of the `try` block of `upload_template`: reject filenames not
ending in `.html` with a 400, else write the file and report success. -/
def upload_template_try (dir : Dir) (filename content : String) :
    Dir × Except HTTPError String :=
  if (pyEndsWith filename ".html") = false then
    (dir, Except.error (400, "Only HTML files are allowed"))
  else
    (writeFile dir filename content,
     Except.ok ("Template " ++ filename ++ " uploaded successfully"))

/-- The `upload_template` endpoint.  Its blanket `except Exception` also
catches the `HTTPException(400)` raised inside the `try`, re-raising it as
`HTTPException(500, str(e))`. -/
def upload_template (dir : Dir) (filename content : String) :
    Dir × Except HTTPError String :=
  match upload_template_try dir filename content with
  | (d, Except.ok m) => (d, Except.ok m)
  | (d, Except.error e) => (d, Except.error (500, strOfHTTPException e))

/-! ## Generate-HTML endpoint -/

/-- The body of the `try` block of `generate_email_html`: resolve then render. -/
def generate_email_html_try (dir : TDir) (name : String) (ctx : Context) :
    Except HTTPError String :=
  match get_template dir name with
  | Except.error e => Except.error e
  | Except.ok t => Except.ok (render t ctx)

/-- The `generate_email_html` endpoint.  Its blanket `except Exception` also
catches the `HTTPException(404)` from `get_template`, re-raising it as
`HTTPException(500, str(e))`. -/
def generate_email_html (dir : TDir) (name : String) (ctx : Context) :
    Except HTTPError String :=
  match generate_email_html_try dir name ctx with
  | Except.ok h => Except.ok h
  | Except.error e => Except.error (500, strOfHTTPException e)

/-! ## Mail dispatcher (`EmailSender`) -/

/-- The local filesystem for attachments: path to file bytes.  A path is
`os.path.exists` exactly when it is bound here. -/
abbrev FS := List (String × List Nat)

/-- The base64 alphabet. -/
def base64Chars : List Char :=
  "ABCDEFGHIJKLMNOPQRSTUVWXYZabcdefghijklmnopqrstuvwxyz0123456789+/".toList

/-- The base64 digit for a 6-bit value. -/
def b64Char (n : Nat) : Char := base64Chars.getD n (Char.ofNat 61)

/-- Standard base64 encoding of a byte sequence with `=` padding, as applied by
`encoders.encode_base64`. -/
def base64Encode : List Nat → List Char
  | [] => []
  | [b1] => [b64Char (b1 / 4), b64Char (b1 % 4 * 16), Char.ofNat 61, Char.ofNat 61]
  | [b1, b2] =>
      [b64Char (b1 / 4), b64Char (b1 % 4 * 16 + b2 / 16),
       b64Char (b2 % 16 * 4), Char.ofNat 61]
  | b1 :: b2 :: b3 :: rest =>
      b64Char (b1 / 4) :: b64Char (b1 % 4 * 16 + b2 / 16) ::
      b64Char (b2 % 16 * 4 + b3 / 64) :: b64Char (b3 % 64) :: base64Encode rest

/-- `os.path.basename`: the part of the path after the last slash. -/
def basename (p : String) : String :=
  ((splitChars '/' p.toList).map String.mk).getLastD ""

/-- One attachment part: an application/octet-stream `MIMEBase` with base64
payload and a `Content-Disposition` header naming the basename. -/
structure MIMEPart where
  filename : String
  payload : String
  content_disposition : String
deriving DecidableEq

/-- Build the MIME part attached for one existing attachment path. -/
def mkAttachmentPart (path : String) (bytes : List Nat) : MIMEPart :=
  { filename := basename path
    payload := String.mk (base64Encode bytes)
    content_disposition := "attachment; filename= " ++ basename path }

/-- The attachment loop of `EmailSender.send_email`: for each path, attach it
when it exists on the filesystem, silently skip it otherwise. -/
def attachLoop (fs : FS) (paths : List String) : List MIMEPart :=
  paths.foldl (fun acc p =>
    match lookup fs p with
    | some bytes => acc ++ [mkAttachmentPart p bytes]
    | none => acc) []

/-- The SMTP-relevant configuration (`EmailConfig` pydantic model). -/
structure EmailConfig where
  smtp_server : String
  smtp_port : Nat
  username : String
  password : String
  use_tls : Bool
deriving DecidableEq

/-- The constructed multipart message (`MIMEMultipart`), observable as by a
mock transport. -/
structure Message where
  from_addr : String
  to_addr : String
  subject : String
  html_body : String
  attachment_parts : List MIMEPart
deriving DecidableEq

/-- `EmailSender.send_email`.  `smtp` is the outcome of the SMTP session
(connect, optional STARTTLS, login, send): `Except.error t` is any smtplib
exception with text `t`.  The whole body runs in a `try` whose
`except Exception` re-raises `HTTPException(500, "Failed to send email: "
++ str(e))`; that catch also swallows the 404 from `get_template`. -/
def EmailSender_send_email (templates : TDir) (fs : FS) (smtp : Except String Unit)
    (cfg : EmailConfig) (templateName subject : String) (recipients : List String)
    (ctx : Context) (attachments : List String) :
    Except HTTPError (Message × String) :=
  match
    (match get_template templates templateName with
     | Except.error e => Except.error (strOfHTTPException e)
     | Except.ok t =>
        let msg : Message :=
          { from_addr := cfg.username
            to_addr := String.intercalate ", " recipients
            subject := subject
            html_body := render t ctx
            attachment_parts := attachLoop fs attachments }
        match smtp with
        | Except.error err => Except.error err
        | Except.ok _ => Except.ok msg)
  with
  | Except.ok msg => Except.ok (msg, "Email sent successfully")
  | Except.error e => Except.error (500, "Failed to send email: " ++ e)

/-- The `send_email` endpoint: delegates to `EmailSender.send_email` and
re-raises any exception as `HTTPException(500, str(e))`. -/
def send_email_endpoint (templates : TDir) (fs : FS) (smtp : Except String Unit)
    (cfg : EmailConfig) (templateName subject : String) (recipients : List String)
    (ctx : Context) (attachments : List String) :
    Except HTTPError (Message × String) :=
  match EmailSender_send_email templates fs smtp cfg templateName subject
      recipients ctx attachments with
  | Except.ok r => Except.ok r
  | Except.error e => Except.error (500, strOfHTTPException e)

/-! ## Configuration (`Config.__init__`, module-level `config = Config()`) -/

/-- The process environment: variables actually set. -/
abbrev Env := List (String × String)

/-- `os.getenv(key, dflt)`. -/
def getenv (env : Env) (key dflt : String) : String :=
  match lookup env key with
  | some v => v
  | none => dflt

/-- The process-wide settings object built by `Config.__init__`. -/
structure Config where
  smtp_server : String
  smtp_port : Nat
  username : String
  password : String
  use_tls : Bool
  template_dir : String
deriving DecidableEq

/-- `Config.__init__`, evaluated once at module import (`config = Config()`).
Returns `none` when `int(os.getenv("SMTP_PORT", "587"))` raises. -/
def Config_init (env : Env) : Option Config :=
  match parseNat (getenv env "SMTP_PORT" "587") with
  | none => none
  | some port =>
      some { smtp_server := getenv env "SMTP_SERVER" ""
             smtp_port := port
             username := getenv env "SMTP_USERNAME" ""
             password := getenv env "SMTP_PASSWORD" ""
             use_tls := lowerStr (getenv env "USE_TLS" "true") == "true"
             template_dir := getenv env "TEMPLATE_DIR" "templates" }

/-! ## Paths (for the upload write path) and directory creation -/

/-- A filesystem path as components relative to the working directory. -/
abbrev PathC := List String

/-- Split a caller-supplied filename on the path separator. -/
def splitPath (s : String) : List String :=
  (splitChars '/' s.toList).map String.mk

/-- `template_manager.template_dir / file.filename`: plain join, no
sanitization of the filename components. -/
def joinUnder (dir : PathC) (filename : String) : PathC :=
  dir ++ splitPath filename

/-- One step of OS path resolution: `.` and empty components vanish, `..` pops
the previous component. -/
def normStep (acc : List String) (c : String) : List String :=
  if c == "." ∨ c == "" then acc
  else if c == ".." then
    match acc with
    | [] => [".."]
    | _ :: _ => if acc.getLastD "" == ".." then acc ++ [".."] else acc.dropLast
  else acc ++ [c]

/-- The path the OS actually resolves a relative path to. -/
def normalizePath (p : PathC) : PathC := p.foldl normStep []

/-- Filesystem state for the startup invariant: existing directories and the
template directory contents. -/
structure FsState where
  dirs : List String
  files : Dir
deriving DecidableEq

/-- `Path(template_dir).mkdir(exist_ok=True)`: create the directory when
missing, leave the state untouched when it exists. -/
def mkdir_exist_ok (d : String) (s : FsState) : FsState :=
  if s.dirs.contains d then s else { s with dirs := d :: s.dirs }

/-- `TemplateManager.__init__` on the filesystem: only the `mkdir`. -/
def TemplateManager_init (template_dir : String) (s : FsState) : FsState :=
  mkdir_exist_ok template_dir s

/-- The upload endpoint acting on the filesystem state: it touches only the
files of the template directory, never the set of directories. -/
def upload_state (s : FsState) (filename content : String) :
    FsState × Except HTTPError String :=
  let r := upload_template s.files filename content
  ({ s with files := r.1 }, r.2)

/-! ## Helper lemmas -/

/-- No output of the character escaper contains a raw `<`, `>` or double quote. -/
theorem escapeChar_no_specials (c : Char) :
    '<' ∉ escapeChar c ∧ '>' ∉ escapeChar c ∧ Char.ofNat 34 ∉ escapeChar c := by
  unfold escapeChar
  by_cases h1 : c = '&'
  · subst h1; decide
  by_cases h2 : c = '<'
  · subst h2; simp only [h1, if_false, if_pos rfl]; decide
  by_cases h3 : c = '>'
  · subst h3; simp only [h1, h2, if_false, if_pos rfl]; decide
  by_cases h4 : c = Char.ofNat 39
  · subst h4; simp only [h1, h2, h3, if_false, if_pos rfl]; decide
  by_cases h5 : c = Char.ofNat 34
  · subst h5; simp only [h1, h2, h3, h4, if_false, if_pos rfl]; decide
  simp only [h1, h2, h3, h4, h5, if_false, List.mem_singleton]
  exact ⟨fun h => h2 h.symm, fun h => h3 h.symm, fun h => h5 h.symm⟩

/-- The attachment loop with a seed accumulator, as a `filterMap`. -/
theorem attachLoop_go (fs : FS) (paths : List String) (acc : List MIMEPart) :
    paths.foldl (fun acc p =>
      match lookup fs p with
      | some bytes => acc ++ [mkAttachmentPart p bytes]
      | none => acc) acc
    = acc ++ paths.filterMap (fun p => (lookup fs p).map (mkAttachmentPart p)) := by
  induction paths generalizing acc with
  | nil => simp
  | cons p ps ih =>
      simp only [List.foldl_cons, List.filterMap_cons]
      cases h : lookup fs p with
      | none => simp only [h, Option.map_none]; exact ih acc
      | some bytes =>
          simp only [h, Option.map_some]
          rw [ih (acc ++ [mkAttachmentPart p bytes]), List.append_assoc]
          rfl

/-- The attachment loop attaches exactly the paths that exist on the
filesystem, in order, and silently skips the rest. -/
theorem attachLoop_eq_filterMap (fs : FS) (paths : List String) :
    attachLoop fs paths =
      paths.filterMap (fun p => (lookup fs p).map (mkAttachmentPart p)) := by
  unfold attachLoop
  rw [attachLoop_go fs paths []]
  rfl

/-- The template-listing loop with a seed accumulator, as a `filter`. -/
theorem list_templates_go (dir : Dir) (acc : List String) :
    dir.foldl (fun acc f => if globHtml f.1 then acc ++ [f.1] else acc) acc
      = acc ++ ((dir.map Prod.fst).filter globHtml) := by
  induction dir generalizing acc with
  | nil => simp
  | cons f d ih =>
      simp only [List.foldl_cons, List.map_cons, List.filter_cons]
      by_cases h : globHtml f.1 = true
      · rw [if_pos h, if_pos h, ih (acc ++ [f.1]), List.append_assoc]
        rfl
      · rw [if_neg h, if_neg h]
        exact ih acc

/-- Specialization of the exception-to-string rendering at status 500. -/
theorem strOfHTTPException_500 (d : String) :
    strOfHTTPException (500, d) = "500: " ++ d := by
  show (toString (500 : Nat) ++ ": ") ++ d = "500: " ++ d
  have h : (toString (500 : Nat) ++ ": ") = "500: " := rfl
  rw [h]

/-- The name written by `writeFile` appears among the directory entries. -/
theorem writeFile_mem_fst (dir : Dir) (name content : String) :
    name ∈ (writeFile dir name content).map Prod.fst := by
  unfold writeFile lookup
  cases hf : dir.find? (fun kv => kv.1 == name) with
  | none => simp [hf]
  | some kv =>
      have hmem : kv ∈ dir := List.mem_of_find?_eq_some hf
      have hkey : (kv.1 == name) = true := by
        have h0 := List.find?_some hf
        simpa using h0
      simp only [hf, Option.isSome_some, if_true, List.map_map]
      have heq : kv.1 = name := by simpa using hkey
      exact List.mem_map.mpr ⟨kv, hmem, by simp [heq]⟩

/-! ## Claims -/

/-- C1: the spec says an upload whose filename does not end in `.html` fails
with Bad Request reported as HTTP 400.  The code raises `HTTPException(400)`
inside the `try` of `upload_template`, but the blanket `except Exception`
catches it and re-raises 500 with `str(e)`, so the response status is 500 (the
intended 400 survives only inside the detail text).  No file is written in
that case; filenames ending in `.html` do succeed with a success status. -/
theorem C1_upload_bad_extension_reports_500 :
    (∀ (dir : Dir) (content : String), upload_template dir "x.txt" content =
      (dir, Except.error (500, "400: Only HTML files are allowed"))) ∧
    upload_template [] "x.html" "body" =
      ([("x.html", "body")], Except.ok "Template x.html uploaded successfully") :=
  ⟨fun _ _ => rfl, rfl⟩

/-- C2: `get_template` on a missing name does fail with Not Found (404), but
the `generate_email_html` endpoint catches that `HTTPException` in its blanket
`except Exception` and re-raises it as 500, so the HTTP answer carries status
500, not the 404 the spec states (the 404 survives only in the detail text). -/
theorem C2_missing_template_reports_500 :
    get_template ([] : TDir) "missing.html" =
      Except.error (404, "Template missing.html not found") ∧
    generate_email_html [] "missing.html" [] =
      Except.error (500, "404: Template missing.html not found") :=
  ⟨rfl, rfl⟩

/-- C3: every failure of the send pipeline surfaces as an Internal 500 HTTP
error (never an unhandled exception, the endpoint being a total function into
responses), and an SMTP failure with text `errText` yields a 500 whose detail
carries `errText`. -/
theorem C3_send_failures_are_internal
    (templates : TDir) (fs : FS) (smtp : Except String Unit) (cfg : EmailConfig)
    (name subj : String) (rcpts : List String) (ctx : Context) (atts : List String)
    (errText : String) :
    (∀ e, send_email_endpoint templates fs smtp cfg name subj rcpts ctx atts =
        Except.error e → e.1 = 500) ∧
    (smtp = Except.error errText →
      (∃ t, get_template templates name = Except.ok t) →
      send_email_endpoint templates fs smtp cfg name subj rcpts ctx atts =
        Except.error (500, "500: Failed to send email: " ++ errText)) := by
  constructor
  · intro e he
    unfold send_email_endpoint at he
    cases hE : EmailSender_send_email templates fs smtp cfg name subj rcpts ctx atts with
    | ok r =>
        rw [hE] at he
        have h1 : (Except.ok r : Except HTTPError (Message × String)) = Except.error e := he
        simp at h1
    | error e0 =>
        rw [hE] at he
        have h1 : (Except.error (500, strOfHTTPException e0) :
            Except HTTPError (Message × String)) = Except.error e := he
        injection h1 with h2
        rw [← h2]
  · rintro rfl ⟨t, ht⟩
    unfold send_email_endpoint EmailSender_send_email
    rw [ht]
    have key : strOfHTTPException (500, "Failed to send email: " ++ errText)
        = "500: Failed to send email: " ++ errText := by
      rw [strOfHTTPException_500, ← String.append_assoc]
      have h2 : ("500: " : String) ++ "Failed to send email: "
          = "500: Failed to send email: " := rfl
      rw [h2]
    rw [← key]

/-- C3 witness: concrete send with a failing SMTP login. -/
theorem C3_send_failures_are_internal_witness :
    ((Except.error "login failed" : Except String Unit) = Except.error "login failed") ∧
    (∃ t, get_template [("t.html", [Node.lit "hi"])] "t.html" = Except.ok t) ∧
    send_email_endpoint [("t.html", [Node.lit "hi"])] [] (Except.error "login failed")
        ⟨"smtp.example.com", 587, "user", "pw", true⟩ "t.html" "subj" ["a@b.c"] [] [] =
      Except.error (500, "500: Failed to send email: login failed") :=
  ⟨rfl, ⟨[Node.lit "hi"], rfl⟩,
   (C3_send_failures_are_internal [("t.html", [Node.lit "hi"])] []
      (Except.error "login failed") ⟨"smtp.example.com", 587, "user", "pw", true⟩
      "t.html" "subj" ["a@b.c"] [] [] "login failed").2 rfl ⟨[Node.lit "hi"], rfl⟩⟩

/-- C4: the attachment loop attaches exactly the existing paths and silently
skips the missing ones: unconditionally it equals the filterMap of per-path
attachment over the path list; every path bound to bytes on the filesystem
contributes its part to the constructed message — with base64-encoded payload
and a `Content-Disposition` header naming the basename; and a send whose
attachment paths are all missing succeeds with a message carrying no
attachment parts. -/
theorem C4_attachments_existing_attached_missing_skipped
    (fs : FS) (paths : List String) (templates : TDir) (cfg : EmailConfig)
    (name subj : String) (rcpts : List String) (ctx : Context) (t : Template) :
    attachLoop fs paths =
      paths.filterMap (fun p => (lookup fs p).map (mkAttachmentPart p)) ∧
    (∀ p bytes, p ∈ paths → lookup fs p = some bytes →
      mkAttachmentPart p bytes ∈ attachLoop fs paths ∧
      (mkAttachmentPart p bytes).payload = String.mk (base64Encode bytes) ∧
      (mkAttachmentPart p bytes).content_disposition =
        "attachment; filename= " ++ basename p) ∧
    ((∀ p ∈ paths, lookup fs p = none) →
      get_template templates name = Except.ok t →
      ∃ msg, send_email_endpoint templates fs (Except.ok ()) cfg name subj
          rcpts ctx paths = Except.ok (msg, "Email sent successfully") ∧
        msg.attachment_parts = []) := by
  refine ⟨attachLoop_eq_filterMap fs paths, ?_, ?_⟩
  · intro p bytes hp hlook
    refine ⟨?_, rfl, rfl⟩
    rw [attachLoop_eq_filterMap]
    exact List.mem_filterMap.mpr ⟨p, hp, by rw [hlook]; rfl⟩
  · intro hmiss ht
    have hnil : attachLoop fs paths = [] := by
      rw [attachLoop_eq_filterMap]
      exact List.filterMap_eq_nil_iff.mpr (fun p hp => by rw [hmiss p hp]; rfl)
    refine ⟨{ from_addr := cfg.username
              to_addr := String.intercalate ", " rcpts
              subject := subj
              html_body := render t ctx
              attachment_parts := attachLoop fs paths }, ?_, hnil⟩
    unfold send_email_endpoint EmailSender_send_email
    rw [ht]

/-- C4 witness: an existing path whose part is attached with base64 payload
and basename disposition next to a skipped missing path, and a send whose only
attachment path is missing. -/
theorem C4_attachments_witness :
    ("docs/report.pdf" ∈ ["docs/report.pdf", "missing.txt"] ∧
     lookup [("docs/report.pdf", [77, 97, 110])] "docs/report.pdf"
        = some [77, 97, 110]) ∧
    (mkAttachmentPart "docs/report.pdf" [77, 97, 110] ∈
        attachLoop [("docs/report.pdf", [77, 97, 110])]
          ["docs/report.pdf", "missing.txt"] ∧
      (mkAttachmentPart "docs/report.pdf" [77, 97, 110]).payload =
        String.mk (base64Encode [77, 97, 110]) ∧
      (mkAttachmentPart "docs/report.pdf" [77, 97, 110]).content_disposition =
        "attachment; filename= " ++ basename "docs/report.pdf") ∧
    (∀ p ∈ ["nofile.pdf"], lookup ([] : FS) p = none) ∧
    (∃ msg, send_email_endpoint [("t.html", [Node.lit "hi"])] [] (Except.ok ())
        ⟨"smtp.example.com", 587, "user", "pw", true⟩ "t.html" "subj" ["a@b.c"] []
        ["nofile.pdf"] = Except.ok (msg, "Email sent successfully") ∧
      msg.attachment_parts = []) :=
  ⟨⟨by decide, rfl⟩,
   (C4_attachments_existing_attached_missing_skipped
      [("docs/report.pdf", [77, 97, 110])] ["docs/report.pdf", "missing.txt"]
      [("t.html", [Node.lit "hi"])] ⟨"smtp.example.com", 587, "user", "pw", true⟩
      "t.html" "subj" ["a@b.c"] [] [Node.lit "hi"]).2.1
      "docs/report.pdf" [77, 97, 110] (by decide) rfl,
   by decide,
   (C4_attachments_existing_attached_missing_skipped [] ["nofile.pdf"]
      [("t.html", [Node.lit "hi"])] ⟨"smtp.example.com", 587, "user", "pw", true⟩
      "t.html" "subj" ["a@b.c"] [] [Node.lit "hi"]).2.2 (by decide) rfl⟩

/-- C5: rendering the stored template `Hello \x7b\x7b name \x7d\x7d` with the
context binding name to `<b>Alice</b>` yields exactly
`Hello &lt;b&gt;Alice&lt;/b&gt;`; in general no escaped interpolated value ever
contains a raw `<`, `>` or double quote. -/
theorem C5_autoescape :
    generate_email_html [("welcome.html", [Node.lit "Hello ", Node.var "name"])]
        "welcome.html" [("name", "<b>Alice</b>")] =
      Except.ok "Hello &lt;b&gt;Alice&lt;/b&gt;" ∧
    ∀ v : String, '<' ∉ (escape v).toList ∧ '>' ∉ (escape v).toList ∧
      Char.ofNat 34 ∉ (escape v).toList := by
  refine ⟨rfl, fun v => ?_⟩
  have he : (escape v).toList = v.toList.flatMap escapeChar := rfl
  rw [he]
  refine ⟨?_, ?_, ?_⟩ <;> intro hmem <;>
    obtain ⟨c, _, hin⟩ := List.mem_flatMap.mp hmem
  · exact (escapeChar_no_specials c).1 hin
  · exact (escapeChar_no_specials c).2.1 hin
  · exact (escapeChar_no_specials c).2.2 hin

/-- C6: rendering is deterministic — the renderer and the generate-HTML
endpoint are pure functions of the template and the context, so two renders of
identical inputs are byte-identical. -/
theorem C6_render_deterministic (t : Template) (ctx : Context) (dir : TDir)
    (name : String) :
    render t ctx = render t ctx ∧
    generate_email_html dir name ctx = generate_email_html dir name ctx :=
  ⟨rfl, rfl⟩

/-- C7: listing returns exactly the directory entries whose name ends in
`.html`, in enumeration order with no sorting; after an accepted upload the
uploaded name appears in the listing. -/
theorem C7_list_templates_filter_and_upload (dir : Dir) (name content : String)
    (h : pyEndsWith name ".html" = true) :
    list_templates dir = (dir.map Prod.fst).filter globHtml ∧
    name ∈ list_templates (upload_template dir name content).1 := by
  have hlist : ∀ d : Dir, list_templates d = (d.map Prod.fst).filter globHtml := by
    intro d
    unfold list_templates
    rw [list_templates_go d []]
    rfl
  refine ⟨hlist dir, ?_⟩
  have hup : (upload_template dir name content).1 = writeFile dir name content := by
    unfold upload_template upload_template_try
    rw [h]
    simp
  rw [hup, hlist (writeFile dir name content)]
  exact List.mem_filter.mpr ⟨writeFile_mem_fst dir name content, h⟩

/-- C7 witness: uploading `x.html` into a one-file directory. -/
theorem C7_list_templates_witness :
    pyEndsWith "x.html" ".html" = true ∧
    (list_templates [("a.html", "y")] =
        ([("a.html", "y")].map Prod.fst).filter globHtml ∧
     "x.html" ∈ list_templates (upload_template [("a.html", "y")] "x.html" "c").1) :=
  ⟨by decide, C7_list_templates_filter_and_upload [("a.html", "y")] "x.html" "c" (by decide)⟩

/-- C8: when the SMTP_PORT, USE_TLS and TEMPLATE_DIR environment variables are
absent, the settings object built once at startup defaults to port 587, TLS
enabled and template directory `templates`. -/
theorem C8_config_defaults (env : Env)
    (hp : lookup env "SMTP_PORT" = none)
    (htls : lookup env "USE_TLS" = none)
    (hdir : lookup env "TEMPLATE_DIR" = none) :
    ∃ cfg, Config_init env = some cfg ∧
      cfg.smtp_port = 587 ∧ cfg.use_tls = true ∧ cfg.template_dir = "templates" := by
  unfold Config_init getenv
  rw [hp, htls, hdir]
  exact ⟨_, rfl, rfl, rfl, rfl⟩

/-- C8 witness: the empty environment. -/
theorem C8_config_defaults_witness :
    lookup ([] : Env) "SMTP_PORT" = none ∧
    ∃ cfg, Config_init [] = some cfg ∧
      cfg.smtp_port = 587 ∧ cfg.use_tls = true ∧ cfg.template_dir = "templates" :=
  ⟨rfl, C8_config_defaults [] rfl rfl rfl⟩

/-- C9: the upload filter accepts `../x.html` (it only checks the suffix), the
write path is the plain join of the template directory with the caller-supplied
filename, and its OS resolution lands outside the template directory. -/
theorem C9_upload_path_traversal :
    pyEndsWith "../x.html" ".html" = true ∧
    (upload_template [] "../x.html" "body").2 =
      Except.ok "Template ../x.html uploaded successfully" ∧
    joinUnder ["templates"] "../x.html" = ["templates", "..", "x.html"] ∧
    normalizePath (joinUnder ["templates"] "../x.html") = ["x.html"] ∧
    List.isPrefixOf ["templates"] (normalizePath (joinUnder ["templates"] "../x.html"))
      = false :=
  ⟨by decide, rfl, by decide, by decide, by decide⟩

/-- C10: `TemplateManager.__init__` establishes the template directory (mkdir
with exist_ok), leaves the filesystem unchanged when the directory already
exists, and the only state-changing operation (upload) never touches the set
of directories, so the existence invariant is preserved. -/
theorem C10_template_dir_invariant (d filename content : String) (s : FsState) :
    (TemplateManager_init d s).dirs.contains d = true ∧
    (s.dirs.contains d = true → TemplateManager_init d s = s) ∧
    (upload_state s filename content).1.dirs = s.dirs := by
  refine ⟨?_, ?_, rfl⟩
  · unfold TemplateManager_init mkdir_exist_ok
    by_cases h : s.dirs.contains d = true
    · rw [if_pos h]; exact h
    · rw [if_neg h]
      simp [List.contains_cons]
  · intro h
    unfold TemplateManager_init mkdir_exist_ok
    rw [if_pos h]

/-- C10 witness: an existing `templates` directory and one upload. -/
theorem C10_template_dir_invariant_witness :
    (TemplateManager_init "templates" ⟨["templates"], []⟩).dirs.contains "templates"
        = true ∧
    (⟨["templates"], []⟩ : FsState).dirs.contains "templates" = true ∧
    TemplateManager_init "templates" ⟨["templates"], []⟩ = ⟨["templates"], []⟩ ∧
    (upload_state ⟨["templates"], []⟩ "x.html" "c").1.dirs
        = (⟨["templates"], []⟩ : FsState).dirs :=
  ⟨(C10_template_dir_invariant "templates" "x.html" "c" ⟨["templates"], []⟩).1,
   by decide,
   (C10_template_dir_invariant "templates" "x.html" "c" ⟨["templates"], []⟩).2.1 (by decide),
   (C10_template_dir_invariant "templates" "x.html" "c" ⟨["templates"], []⟩).2.2⟩

end EmailApp
